import Mathlib

/-!
Shallow embedding of the container-yard management app (src/app.py).

Records live in an in-memory table (`AppState.data`) mirrored to a CSV file
(`AppState.file`, modelled as rows of cell strings; the CSV layer's comma
escaping/quoting is below this abstraction).  Calendar dates are day numbers
(`Nat`), `days_to_deliver` is an `Int` (a delivery before arrival gives a
negative difference, as in the Python code).  Missing values (pandas `NaN`/
`NaT`) are `Option.none`; the float comparison `NaN <= 3`, which is `False`
in Python, is modelled by the `none` branch of `placementLabel`.
-/

namespace ContainerApp

structure ContainerRecord where
  customer_name : String
  container_id : String
  arrival_date : Nat
  delivery_date : Option Nat
  days_to_deliver : Option Int
  deriving Repr, DecidableEq

/-- `calculate_days` from app.py lines 18-21: `None` when the delivery date is
missing, otherwise the day difference `(delivery - arrival).days`. -/
def calculate_days (arrival : Nat) (delivery : Option Nat) : Option Int :=
  match delivery with
  | none => none
  | some d => some ((d : Int) - (arrival : Int))

/-! ### CSV cell rendering and parsing (to_csv / read_csv) -/

def digitChar (d : Nat) : Char := Char.ofNat (48 + d)

def parseDigit (c : Char) : Option Nat :=
  if 48 ≤ c.toNat ∧ c.toNat ≤ 57 then some (c.toNat - 48) else none

def parseDigits : List Char → Option (List Nat)
  | [] => some []
  | c :: cs =>
    match parseDigit c, parseDigits cs with
    | some d, some ds => some (d :: ds)
    | _, _ => none

def renderNatChars (n : Nat) : List Char :=
  if n = 0 then [digitChar 0] else ((Nat.digits 10 n).reverse).map digitChar

def parseNatChars (l : List Char) : Option Nat :=
  match parseDigits l with
  | some ds => some (Nat.ofDigits 10 ds.reverse)
  | none => none

def renderIntChars (i : Int) : List Char :=
  if i < 0 then '-' :: renderNatChars i.natAbs else renderNatChars i.natAbs

def parseIntChars : List Char → Option Int
  | [] => none
  | c :: cs =>
    if c = '-' then
      match parseNatChars cs with
      | some n => some (-(n : Int))
      | none => none
    else
      match parseNatChars (c :: cs) with
      | some n => some ((n : Int))
      | none => none

def natCell (n : Nat) : String := String.mk (renderNatChars n)

def optNatCell : Option Nat → String
  | none => String.mk []
  | some n => natCell n

def optIntCell : Option Int → String
  | none => String.mk []
  | some i => String.mk (renderIntChars i)

def parseNatCell (s : String) : Option Nat := parseNatChars s.data

/-- An empty cell reads back as a missing value (pandas `NaT`/`NaN`). -/
def parseOptNatCell (s : String) : Option (Option Nat) :=
  if s.data = [] then some none
  else
    match parseNatChars s.data with
    | some n => some (some n)
    | none => none

def parseOptIntCell (s : String) : Option (Option Int) :=
  if s.data = [] then some none
  else
    match parseIntChars s.data with
    | some i => some (some i)
    | none => none

def csvHeader : List String :=
  [("customer_name"), ("container_id"), ("arrival_date"), ("delivery_date"),
    ("days_to_deliver")]

def encodeRecord (r : ContainerRecord) : List String :=
  [r.customer_name, r.container_id, natCell r.arrival_date,
    optNatCell r.delivery_date, optIntCell r.days_to_deliver]

def parseRecord : List String → Option ContainerRecord
  | [name, cid, a, d, days] =>
    match parseNatCell a, parseOptNatCell d, parseOptIntCell days with
    | some av, some dv, some daysv =>
      some { customer_name := name, container_id := cid, arrival_date := av,
             delivery_date := dv, days_to_deliver := daysv }
    | _, _, _ => none
  | _ => none

/-- `DataFrame.to_csv(index=False)`: one header row, then one row per record. -/
def encodeCsv (recs : List ContainerRecord) : List (List String) :=
  csvHeader :: recs.map encodeRecord

def decodeRows : List (List String) → Option (List ContainerRecord)
  | [] => some []
  | row :: rest =>
    match parseRecord row, decodeRows rest with
    | some r, some rs => some (r :: rs)
    | _, _ => none

/-- `pd.read_csv(..., parse_dates=[...])`: drop the header, parse each row. -/
def decodeCsv : List (List String) → Option (List ContainerRecord)
  | [] => none
  | _ :: body => decodeRows body

/-! ### The record store and its persistence (session state + CSV file) -/

structure AppState where
  data : List ContainerRecord
  file : Option (List (List String))
  deriving Repr, DecidableEq

/-- `save_data` (app.py lines 24-25): overwrite the file with the table. -/
def save_data (s : AppState) : AppState :=
  { s with file := some (encodeCsv s.data) }

/-- `load_data` (app.py lines 28-30): if the file exists, replace the table
with its parsed contents; a missing file leaves the (empty) table alone.
`read_csv` on malformed input raises, which ends the script run with the
state untouched, hence the identity fallback. -/
def load_data (s : AppState) : AppState :=
  match s.file with
  | none => s
  | some rows =>
    match decodeCsv rows with
    | some recs => { s with data := recs }
    | none => s

/-! ### Add New Record handler (app.py lines 45-74) -/

/-- The record built on a valid form submission (app.py lines 60-67):
delivery is always present on this path and `days_to_deliver` is computed
inline as `(delivery_date - arrival_date).days`. -/
def newRecord (name cid : String) (arrival delivery : Nat) : ContainerRecord :=
  { customer_name := name, container_id := cid, arrival_date := arrival,
    delivery_date := some delivery,
    days_to_deliver := some ((delivery : Int) - (arrival : Int)) }

/-- The Add Record button handler (app.py lines 56-71): an empty customer
name or container id is rejected with `st.error`; otherwise the record is
appended via `pd.concat` and `save_data()` runs in the same invocation. -/
def addRecordHandler (s : AppState) (name cid : String) (arrival delivery : Nat) :
    AppState × String :=
  if name = String.mk [] ∨ cid = String.mk [] then
    (s, ("Please fill in all fields"))
  else
    save_data { s with data := s.data ++ [newRecord name cid arrival delivery] }
      |> fun s1 => (s1, ("Record added successfully!"))

/-- Clear All Data (app.py lines 174-179): empty the table and save. -/
def clearDataHandler (s : AppState) : AppState :=
  save_data { s with data := [] }

/-! ### Statistics Engine (app.py lines 83-86 and 132) -/

/-- The non-absent `days_to_deliver` values of one customer's records:
pandas `mean`/`count` on a grouped series skip `NaN` entries. -/
def daysValues (recs : List ContainerRecord) (c : String) : List Int :=
  (recs.filter fun r => r.customer_name == c).filterMap fun r => r.days_to_deliver

/-- Arithmetic mean of a list of day counts; `none` (pandas `NaN`) when the
list is empty. -/
def listMean (vs : List Int) : Option Rat :=
  if vs = [] then none
  else some ((vs.map fun i => (i : Rat)).sum / (vs.length : Rat))

/-- Per-customer mean of `days_to_deliver` over ALL of that customer's
records, `groupby('customer_name')['days_to_deliver'].mean()`. -/
def customerAvg (recs : List ContainerRecord) (c : String) : Option Rat :=
  listMean (daysValues recs c)

structure StatsRow where
  customer_name : String
  avg_delivery_days : Option Rat
  record_count : Nat
  deriving Repr, DecidableEq

/-- One output row of the Statistics Engine: the mean skips absent values and
`count` on the grouped series counts only the non-absent entries. -/
def statsRowFor (recs : List ContainerRecord) (c : String) : StatsRow :=
  { customer_name := c, avg_delivery_days := customerAvg recs c,
    record_count := (daysValues recs c).length }

/-- `sort_values('avg_delivery_days')` comparison: `NaN` means sort last. -/
def avgLe : Option Rat → Option Rat → Bool
  | some a, some b => decide (a ≤ b)
  | some _, none => true
  | none, some _ => false
  | none, none => true

def rowLe (a b : StatsRow) : Prop :=
  avgLe a.avg_delivery_days b.avg_delivery_days = true

instance : DecidableRel rowLe := fun a b =>
  instDecidableEqBool (avgLe a.avg_delivery_days b.avg_delivery_days) true

def distinctCustomers (recs : List ContainerRecord) : List String :=
  (recs.map fun r => r.customer_name).dedup

/-- `customer_stats` (app.py lines 83-86): group by customer, aggregate
mean and non-null count, sort ascending by the mean (`NaN` last). -/
def customer_stats (recs : List ContainerRecord) : List StatsRow :=
  List.insertionSort rowLe ((distinctCustomers recs).map (statsRowFor recs))

/-! ### Placement Classifier (app.py lines 118-156) -/

/-- Row filter at app.py lines 125-126: keep a record when its delivery date
is absent or strictly after the current time. -/
def isCurrent (now : Nat) (r : ContainerRecord) : Bool :=
  match r.delivery_date with
  | none => true
  | some d => decide (now < d)

def current_containers (recs : List ContainerRecord) (now : Nat) :
    List ContainerRecord :=
  recs.filter (isCurrent now)

/-- The lambda at app.py lines 137-139.  In Python `x <= 3` is `False` when
`x` is `NaN`, so an undefined average lands in the else branch. -/
def placementLabel (avg : Option Rat) : String :=
  if (match avg with | some x => decide (x ≤ (3 : Rat)) | none => false) = true
  then ("Lower Level (Easy Access)")
  else ("Upper Level (Long-term Storage)")

structure PlacementRow where
  container_id : String
  customer_name : String
  customer_avg_delivery : Option Rat
  placement : String
  deriving Repr, DecidableEq

/-- The classifier output (app.py lines 125-142): each current container,
left-merged with its customer's mean over the full table, then labelled. -/
def placementSuggestions (recs : List ContainerRecord) (now : Nat) :
    List PlacementRow :=
  (current_containers recs now).map fun r =>
    { container_id := r.container_id, customer_name := r.customer_name,
      customer_avg_delivery := customerAvg recs r.customer_name,
      placement := placementLabel (customerAvg recs r.customer_name) }

/-! ### Read-only menu branches (app.py lines 76-116, 118-156, 161-171) -/

/-- View Customer Stats: warns on an empty table (`none`), otherwise shows
the stats; the session state is never assigned. -/
def viewStatsHandler (s : AppState) : AppState × Option (List StatsRow) :=
  (s, if s.data = [] then none else some (customer_stats s.data))

/-- Container Placement Suggestions: reads the table, builds the merged and
labelled view on local copies only. -/
def placementHandler (s : AppState) (now : Nat) :
    AppState × Option (List PlacementRow) :=
  (s, if s.data = [] then none else some (placementSuggestions s.data now))

/-- Data Management export: `to_csv` without a path only returns the text
for the download button; nothing is written. -/
def exportHandler (s : AppState) : AppState × Option (List (List String)) :=
  (s, if s.data = [] then none else some (encodeCsv s.data))

/-! ### The data-model invariant and concrete sample data -/

/-- The spec's invariant on `days_to_deliver`: the exact day difference when
the delivery date is present, absent otherwise — i.e. the value
`calculate_days` would produce. -/
def daysInvariant (r : ContainerRecord) : Prop :=
  r.days_to_deliver = calculate_days r.arrival_date r.delivery_date

/-- A customer with completed deliveries of 4 and 6 days (mean 5) and one
container still in the yard. -/
def recsAvgFive : List ContainerRecord :=
  [⟨("A"), ("c1"), 0, some 4, some 4⟩, ⟨("A"), ("c2"), 0, some 6, some 6⟩,
    ⟨("A"), ("c3"), 0, none, none⟩]

def peFive : PlacementRow :=
  ⟨("c3"), ("A"), some 5, ("Upper Level (Long-term Storage)")⟩

/-- One customer with one completed delivery (2 days) and one record whose
`days_to_deliver` is absent. -/
def recsMixed : List ContainerRecord :=
  [⟨("A"), ("c1"), 0, some 2, some 2⟩, ⟨("A"), ("c2"), 5, none, none⟩]

/-- A customer with no completed deliveries at all. -/
def recsNoData : List ContainerRecord :=
  [⟨("B"), ("c9"), 0, none, none⟩]

def peNoData : PlacementRow :=
  ⟨("c9"), ("B"), none, ("Upper Level (Long-term Storage)")⟩

def rowNoData : StatsRow := ⟨("B"), none, 0⟩

/-- A record with a future delivery date (day 7). -/
def recFuture : ContainerRecord := ⟨("C"), ("c7"), 0, some 7, some 7⟩

def recsFuture : List ContainerRecord := [recFuture]

def emptyState : AppState := ⟨[], none⟩

def mixedState : AppState := ⟨recsMixed, some (encodeCsv recsMixed)⟩

/-! ### Order instances for the sort relation -/

instance : IsTotal StatsRow rowLe where
  total a b := by
    unfold rowLe
    rcases a.avg_delivery_days with _ | x <;> rcases b.avg_delivery_days with _ | y
    · exact Or.inl rfl
    · exact Or.inr rfl
    · exact Or.inl rfl
    · rcases le_total x y with h | h
      · exact Or.inl (by simp [avgLe, h])
      · exact Or.inr (by simp [avgLe, h])

instance : IsTrans StatsRow rowLe where
  trans a b c h1 h2 := by
    unfold rowLe at h1 h2 ⊢
    cases ha : a.avg_delivery_days with
    | none =>
      cases hc : c.avg_delivery_days with
      | none => rfl
      | some z =>
        cases hb : b.avg_delivery_days with
        | none => rw [hb, hc] at h2; exact absurd h2 (by simp [avgLe])
        | some y => rw [ha, hb] at h1; exact absurd h1 (by simp [avgLe])
    | some x =>
      cases hc : c.avg_delivery_days with
      | none => rfl
      | some z =>
        cases hb : b.avg_delivery_days with
        | none => rw [hb, hc] at h2; exact absurd h2 (by simp [avgLe])
        | some y =>
          rw [ha, hb] at h1; rw [hb, hc] at h2
          simp only [avgLe, decide_eq_true_eq] at h1 h2 ⊢
          exact le_trans h1 h2

/-! ### Round-trip lemmas for the CSV cells -/

theorem parseDigit_digitChar {d : Nat} (h : d < 10) :
    parseDigit (digitChar d) = some d := by
  interval_cases d <;> decide

theorem parseDigits_map_digitChar {l : List Nat} (h : ∀ d ∈ l, d < 10) :
    parseDigits (l.map digitChar) = some l := by
  induction l with
  | nil => rfl
  | cons d ds ih =>
    simp only [List.map_cons, parseDigits]
    rw [parseDigit_digitChar (h d (by simp)), ih fun x hx => h x (by simp [hx])]

theorem parseNatChars_renderNatChars (n : Nat) :
    parseNatChars (renderNatChars n) = some n := by
  rcases Nat.eq_zero_or_pos n with h0 | h0
  · subst h0; decide
  · have hlt : ∀ d ∈ (Nat.digits 10 n).reverse, d < 10 := fun d hd =>
      Nat.digits_lt_base (by norm_num) (List.mem_reverse.mp hd)
    unfold renderNatChars parseNatChars
    rw [if_neg (Nat.pos_iff_ne_zero.mp h0), parseDigits_map_digitChar hlt]
    show some (Nat.ofDigits 10 ((Nat.digits 10 n).reverse).reverse) = some n
    rw [List.reverse_reverse, Nat.ofDigits_digits]

theorem renderNatChars_ne_nil (n : Nat) : renderNatChars n ≠ [] := by
  unfold renderNatChars
  split
  · simp
  · next h =>
    intro hcon
    exact Nat.digits_ne_nil_iff_ne_zero.mpr h
      (List.reverse_eq_nil_iff.mp (List.map_eq_nil_iff.mp hcon))

theorem mem_renderNatChars_ne_dash {n : Nat} {c : Char}
    (hc : c ∈ renderNatChars n) : c ≠ '-' := by
  unfold renderNatChars at hc
  split at hc
  · simp only [List.mem_singleton] at hc; subst hc; decide
  · rcases List.mem_map.mp hc with ⟨d, hd, rfl⟩
    have hlt : d < 10 := Nat.digits_lt_base (by norm_num) (List.mem_reverse.mp hd)
    interval_cases d <;> decide

theorem renderIntChars_ne_nil (i : Int) : renderIntChars i ≠ [] := by
  unfold renderIntChars
  split
  · intro hcon; cases hcon
  · exact renderNatChars_ne_nil _

theorem parseIntChars_renderIntChars (i : Int) :
    parseIntChars (renderIntChars i) = some i := by
  by_cases hneg : i < 0
  · have h1 : renderIntChars i = '-' :: renderNatChars i.natAbs := if_pos hneg
    rw [h1]
    simp only [parseIntChars, if_pos rfl]
    rw [parseNatChars_renderNatChars]
    show some (-((i.natAbs : Nat) : Int)) = some i
    congr 1
    omega
  · have h1 : renderIntChars i = renderNatChars i.natAbs := if_neg hneg
    cases hr : renderNatChars i.natAbs with
    | nil => exact absurd hr (renderNatChars_ne_nil _)
    | cons c cs =>
      rw [h1, hr]
      simp only [parseIntChars,
        if_neg (mem_renderNatChars_ne_dash (hr ▸ List.mem_cons_self c cs))]
      rw [← hr, parseNatChars_renderNatChars]
      show some (((i.natAbs : Nat) : Int)) = some i
      congr 1
      omega

theorem parseNatCell_natCell (n : Nat) : parseNatCell (natCell n) = some n :=
  parseNatChars_renderNatChars n

theorem parseOptNatCell_optNatCell (d : Option Nat) :
    parseOptNatCell (optNatCell d) = some d := by
  cases d with
  | none => rfl
  | some n =>
    have hne : (natCell n).data ≠ [] := renderNatChars_ne_nil n
    show parseOptNatCell (natCell n) = some (some n)
    unfold parseOptNatCell
    rw [if_neg hne]
    have hp : parseNatChars (natCell n).data = some n :=
      parseNatChars_renderNatChars n
    rw [hp]

theorem parseOptIntCell_optIntCell (d : Option Int) :
    parseOptIntCell (optIntCell d) = some d := by
  cases d with
  | none => rfl
  | some i =>
    have hne : (optIntCell (some i)).data ≠ [] := renderIntChars_ne_nil i
    unfold parseOptIntCell
    rw [if_neg hne]
    have hp : parseIntChars (optIntCell (some i)).data = some i :=
      parseIntChars_renderIntChars i
    rw [hp]

theorem parseRecord_encodeRecord (r : ContainerRecord) :
    parseRecord (encodeRecord r) = some r := by
  simp only [encodeRecord, parseRecord, parseNatCell_natCell,
    parseOptNatCell_optNatCell, parseOptIntCell_optIntCell]

theorem decodeRows_map_encodeRecord (recs : List ContainerRecord) :
    decodeRows (recs.map encodeRecord) = some recs := by
  induction recs with
  | nil => rfl
  | cons r rs ih =>
    simp only [List.map_cons, decodeRows, parseRecord_encodeRecord, ih]

theorem decodeCsv_encodeCsv (recs : List ContainerRecord) :
    decodeCsv (encodeCsv recs) = some recs :=
  decodeRows_map_encodeRecord recs

/-! ### Helper lemmas about the classifier and the statistics engine -/

section Claims

attribute [local semireducible] Rat.add Rat.mul Rat.inv Rat.sub

theorem placementLabel_some (a : Rat) :
    placementLabel (some a) =
      if a ≤ 3 then ("Lower Level (Easy Access)")
      else ("Upper Level (Long-term Storage)") := by
  by_cases h : a ≤ 3 <;> simp [placementLabel, h]

theorem placementLabel_none :
    placementLabel none = ("Upper Level (Long-term Storage)") := rfl

theorem mem_customer_stats {recs : List ContainerRecord} {row : StatsRow} :
    row ∈ customer_stats recs ↔
      ∃ c ∈ distinctCustomers recs, row = statsRowFor recs c := by
  unfold customer_stats
  rw [List.mem_insertionSort]
  constructor
  · intro h
    rcases List.mem_map.mp h with ⟨c, hc, rfl⟩
    exact ⟨c, hc, rfl⟩
  · rintro ⟨c, hc, rfl⟩
    exact List.mem_map.mpr ⟨c, hc, rfl⟩

/-! ### The claims -/

/-- C1: every record considered by the Placement Classifier whose customer
has a defined historical mean `days_to_deliver` is assigned
"Lower Level (Easy Access)" when that mean is at most 3 days and
"Upper Level (Long-term Storage)" otherwise. -/
theorem placement_threshold_rule (recs : List ContainerRecord) (now : Nat)
    (row : PlacementRow) (hrow : row ∈ placementSuggestions recs now) (a : Rat)
    (ha : customerAvg recs row.customer_name = some a) :
    row.placement =
      if a ≤ 3 then ("Lower Level (Easy Access)")
      else ("Upper Level (Long-term Storage)") := by
  rcases List.mem_map.mp hrow with ⟨r, hr, rfl⟩
  have ha2 : customerAvg recs r.customer_name = some a := ha
  show placementLabel (customerAvg recs r.customer_name) = _
  rw [ha2, placementLabel_some]

/-- Witness for C1: the customer averaging 5 days over two completed
deliveries gets upper-level storage for its yard container. -/
theorem placement_threshold_rule_applied :
    peFive ∈ placementSuggestions recsAvgFive 10 ∧
    customerAvg recsAvgFive peFive.customer_name = some 5 ∧
    peFive.placement =
      (if (5 : Rat) ≤ 3 then ("Lower Level (Easy Access)")
       else ("Upper Level (Long-term Storage)")) :=
  ⟨by decide, by decide,
    placement_threshold_rule recsAvgFive 10 peFive (by decide) 5 (by decide)⟩

/-- C2: the classifier's input is exactly the records whose delivery date is
absent or strictly in the future, hence no past-delivery record appears. -/
theorem current_containers_no_past (recs : List ContainerRecord) (now : Nat)
    (r : ContainerRecord) :
    (r ∈ current_containers recs now ↔
      r ∈ recs ∧
        (r.delivery_date = none ∨ ∃ d, r.delivery_date = some d ∧ now < d)) ∧
    (r ∈ current_containers recs now →
      ∀ d, r.delivery_date = some d → ¬ d < now) := by
  have hchar : r ∈ current_containers recs now ↔
      r ∈ recs ∧
        (r.delivery_date = none ∨ ∃ d, r.delivery_date = some d ∧ now < d) := by
    unfold current_containers
    rw [List.mem_filter]
    apply and_congr_right
    intro _
    unfold isCurrent
    cases hd : r.delivery_date with
    | none => simp
    | some d =>
      constructor
      · intro h
        exact Or.inr ⟨d, rfl, of_decide_eq_true h⟩
      · rintro (h | ⟨d2, hd2, hlt⟩)
        · cases h
        · have hdd : d = d2 := by injection hd2
          subst hdd
          exact decide_eq_true hlt
  refine ⟨hchar, fun hmem d hd => ?_⟩
  rcases (hchar.mp hmem).2 with hnone | ⟨d2, hd2, hlt⟩
  · rw [hd] at hnone
    cases hnone
  · rw [hd] at hd2
    have hdd : d = d2 := by injection hd2
    subst hdd
    omega

/-- Witness for C2: a record delivered on day 7 is current on day 5, and
day 7 is not in the past of day 5. -/
theorem current_containers_no_past_applied :
    recFuture ∈ current_containers recsFuture 5 ∧ ¬ (7 : Nat) < 5 :=
  ⟨by decide,
    (current_containers_no_past recsFuture 5 recFuture).2 (by decide) 7
      (by decide)⟩

/-- C3 counterexample: a customer with two records, one of them with absent
`days_to_deliver`, gets `record_count = 1` in the only stats row even though
the customer has 2 records — pandas `count` skips the NaN entries, so the
claimed "count of that customer's records" fails. -/
theorem customer_stats_record_count_cx :
    customer_stats recsMixed = [⟨("A"), some 2, 1⟩] ∧
    (recsMixed.filter fun r => r.customer_name == ("A")).length = 2 :=
  ⟨by decide, by decide⟩

/-- C3 (amended): for every non-empty record set the Statistics Engine
emits exactly one row per distinct customer, carrying the mean of the
customer's non-absent `days_to_deliver` values and the count of the
customer's records with non-absent `days_to_deliver`, sorted ascending by
mean with undefined means last. -/
theorem customer_stats_shape (recs : List ContainerRecord) (hne : recs ≠ []) :
    ((customer_stats recs).map StatsRow.customer_name).Nodup ∧
    (∀ c, c ∈ (customer_stats recs).map StatsRow.customer_name ↔
      c ∈ recs.map ContainerRecord.customer_name) ∧
    (∀ row ∈ customer_stats recs,
      row.avg_delivery_days = customerAvg recs row.customer_name ∧
      row.record_count = (daysValues recs row.customer_name).length) ∧
    List.Sorted rowLe (customer_stats recs) := by
  have hperm : List.Perm (customer_stats recs)
      ((distinctCustomers recs).map (statsRowFor recs)) :=
    List.perm_insertionSort rowLe _
  have hnames :
      ((distinctCustomers recs).map (statsRowFor recs)).map StatsRow.customer_name
        = distinctCustomers recs := by
    simp [List.map_map, Function.comp_def, statsRowFor]
  refine ⟨?_, ?_, ?_, List.sorted_insertionSort rowLe _⟩
  · refine ((hperm.map StatsRow.customer_name).nodup_iff).mpr ?_
    rw [hnames]
    exact List.nodup_dedup _
  · intro c
    rw [(hperm.map StatsRow.customer_name).mem_iff, hnames]
    exact List.mem_dedup
  · intro row hrow
    rcases mem_customer_stats.mp hrow with ⟨c, hc, rfl⟩
    exact ⟨rfl, rfl⟩

/-- Witness for the amended C3 at a concrete non-empty record set. -/
theorem customer_stats_shape_applied :
    recsMixed ≠ [] ∧
    ((customer_stats recsMixed).map StatsRow.customer_name).Nodup :=
  ⟨by decide, (customer_stats_shape recsMixed (by decide)).1⟩

/-- C4: a record built by the form handler carries
`days_to_deliver = delivery - arrival`; `calculate_days` yields `none` for
an absent delivery date; the Add Record handler preserves the invariant for
every stored record; arrival 2024-01-01 (day 738886) with delivery
2024-01-03 (day 738888) gives 2. -/
theorem days_invariant_spec (s : AppState) (name cid : String)
    (arrival delivery : Nat) (hinv : ∀ r ∈ s.data, daysInvariant r) :
    daysInvariant (newRecord name cid arrival delivery) ∧
    (newRecord name cid arrival delivery).days_to_deliver
      = some ((delivery : Int) - (arrival : Int)) ∧
    (∀ a, calculate_days a none = none) ∧
    (∀ r ∈ ((addRecordHandler s name cid arrival delivery).1).data,
      daysInvariant r) ∧
    (newRecord name cid 738886 738888).days_to_deliver = some 2 := by
  refine ⟨rfl, rfl, fun a => rfl, ?_,
    by show some ((738888 : Int) - 738886) = some 2; decide⟩
  unfold addRecordHandler
  split
  · exact hinv
  · intro r hr
    rcases List.mem_append.mp hr with h | h
    · exact hinv r h
    · rw [List.mem_singleton.mp h]
      rfl

/-- Witness for C4 on the empty store. -/
theorem days_invariant_spec_applied :
    (∀ r ∈ emptyState.data, daysInvariant r) ∧
    (newRecord ("Acme") ("K1") 738886 738888).days_to_deliver = some 2 :=
  ⟨by simp [emptyState],
    (days_invariant_spec emptyState ("Acme") ("K1") 738886 738888
      (by simp [emptyState])).2.2.2.2⟩

/-- C5: writing the store to the persisted file and reloading it reproduces
the same records, in the same order, with the same field values. -/
theorem save_load_roundtrip (s : AppState) :
    (load_data (save_data s)).data = s.data := by
  unfold save_data load_data
  simp [decodeCsv_encodeCsv]

/-- C6: a record whose customer has no completed deliveries (the mean is
undefined) is assigned "Upper Level (Long-term Storage)". -/
theorem placement_no_history (recs : List ContainerRecord) (now : Nat)
    (row : PlacementRow) (hrow : row ∈ placementSuggestions recs now)
    (hnone : daysValues recs row.customer_name = []) :
    row.placement = ("Upper Level (Long-term Storage)") := by
  rcases List.mem_map.mp hrow with ⟨r, hr, rfl⟩
  have hnone2 : daysValues recs r.customer_name = [] := hnone
  show placementLabel (customerAvg recs r.customer_name) = _
  unfold customerAvg
  rw [hnone2]
  rfl

/-- Witness for C6: customer "B" has no completed deliveries. -/
theorem placement_no_history_applied :
    peNoData ∈ placementSuggestions recsNoData 0 ∧
    daysValues recsNoData peNoData.customer_name = [] ∧
    peNoData.placement = ("Upper Level (Long-term Storage)") :=
  ⟨by decide, by decide,
    placement_no_history recsNoData 0 peNoData (by decide) (by decide)⟩

/-- C7: a customer group whose members all have absent `days_to_deliver`
surfaces the undefined marker (`none`, pandas NaN) as its mean — in
particular never the mean zero — and counts zero non-absent entries. -/
theorem stats_no_data_group (recs : List ContainerRecord) (row : StatsRow)
    (hrow : row ∈ customer_stats recs)
    (hnone : daysValues recs row.customer_name = []) :
    row.avg_delivery_days = none ∧ row.avg_delivery_days ≠ some 0 ∧
    row.record_count = 0 := by
  rcases mem_customer_stats.mp hrow with ⟨c, hc, rfl⟩
  have hnone2 : daysValues recs c = [] := hnone
  refine ⟨?_, ?_, ?_⟩
  · show customerAvg recs c = none
    unfold customerAvg
    rw [hnone2]
    rfl
  · show customerAvg recs c ≠ some 0
    unfold customerAvg
    rw [hnone2]
    simp [listMean]
  · show (daysValues recs c).length = 0
    rw [hnone2]
    rfl

/-- Witness for C7 at customer "B" whose only record lacks a delivery. -/
theorem stats_no_data_group_applied :
    rowNoData ∈ customer_stats recsNoData ∧
    rowNoData.avg_delivery_days = none ∧ rowNoData.record_count = 0 :=
  ⟨by decide,
    (stats_no_data_group recsNoData rowNoData (by decide) (by decide)).1,
    (stats_no_data_group recsNoData rowNoData (by decide) (by decide)).2.2⟩

/-- C8: an empty customer name or container id is rejected with the inline
message "Please fill in all fields" and the store and the file are left
exactly as they were. -/
theorem reject_empty_submission (s : AppState) (name cid : String)
    (arrival delivery : Nat) (h : name = String.mk [] ∨ cid = String.mk []) :
    addRecordHandler s name cid arrival delivery
      = (s, ("Please fill in all fields")) := by
  unfold addRecordHandler
  rw [if_pos h]

/-- Witness for C8: an empty container id on a populated store. -/
theorem reject_empty_submission_applied :
    (("Acme") = String.mk [] ∨ (String.mk [] : String) = String.mk []) ∧
    addRecordHandler mixedState ("Acme") (String.mk []) 0 3
      = (mixedState, ("Please fill in all fields")) :=
  ⟨Or.inr rfl,
    reject_empty_submission mixedState ("Acme") (String.mk []) 0 3 (Or.inr rfl)⟩

/-- C9: a valid submission appends the new record at the end, leaves every
previously stored record unchanged in value and order, writes the updated
store to the file in the same invocation, and reports success. -/
theorem add_record_appends_and_saves (s : AppState) (name cid : String)
    (arrival delivery : Nat) (hn : name ≠ String.mk [])
    (hc : cid ≠ String.mk []) :
    (addRecordHandler s name cid arrival delivery).1.data
      = s.data ++ [newRecord name cid arrival delivery] ∧
    ((addRecordHandler s name cid arrival delivery).1.data).take s.data.length
      = s.data ∧
    (addRecordHandler s name cid arrival delivery).1.file
      = some (encodeCsv (s.data ++ [newRecord name cid arrival delivery])) ∧
    (addRecordHandler s name cid arrival delivery).2
      = ("Record added successfully!") := by
  have hcond : ¬ (name = String.mk [] ∨ cid = String.mk []) := by
    rintro (h | h)
    · exact hn h
    · exact hc h
  unfold addRecordHandler
  rw [if_neg hcond]
  refine ⟨rfl, ?_, rfl, rfl⟩
  show (s.data ++ [newRecord name cid arrival delivery]).take s.data.length
    = s.data
  simp

/-- Witness for C9 on a populated store. -/
theorem add_record_appends_and_saves_applied :
    (("Acme") : String) ≠ String.mk [] ∧
    (addRecordHandler mixedState ("Acme") ("K1") 0 3).1.data
      = mixedState.data ++ [newRecord ("Acme") ("K1") 0 3] :=
  ⟨by decide,
    (add_record_appends_and_saves mixedState ("Acme") ("K1") 0 3 (by decide)
      (by decide)).1⟩

/-- C10: the read-only interactions (customer stats, placement suggestions,
CSV export) return the store and the persisted file unchanged. -/
theorem readonly_branches_no_mutation (s : AppState) (now : Nat) :
    (viewStatsHandler s).1 = s ∧ (placementHandler s now).1 = s ∧
    (exportHandler s).1 = s :=
  ⟨rfl, rfl, rfl⟩

end Claims

end ContainerApp
